import Mathlib

/-
Verification of the misuzu single-step canary traffic controller
(`main.go` and the App Engine client file of the repository).

Modelling conventions:
* Go `float64` percentages are embedded as `ℚ`; all percentage arithmetic
  performed by the program (`+` of small values, comparison, `100 - x`,
  `x / 100`) is exact at the values the program manipulates.
* Go `int` fields of the configuration are embedded as `ℤ`.
* Go `error` results are embedded as tagged variants carrying the data that
  the corresponding `fmt.Errorf` message interpolates.
* Side effects of a controller run are reproduced as data: the run result
  records the process exit code and the list of `UpdateTrafficAllocation`
  invocations, each with the `shardBy` argument and the allocation map
  (as an association list) that the code passes.
* `fmt.Print*` calls and the progress-bar wait carry no decision logic and
  are not modelled; fetching the snapshot from the platform is external, so
  the controller run takes the fetched `TrafficInfo` as an argument, and the
  platform's answer to a well-formed update request is a boolean parameter.
-/

namespace Misuzu

/-- `TrafficAllocation` (App Engine client file): one version's share. -/
structure TrafficAllocation where
  Version : String
  Percentage : ℚ
deriving Repr, DecidableEq

/-- `TrafficInfo` (App Engine client file): all traffic information for a service. -/
structure TrafficInfo where
  ServiceName : String
  Allocations : List TrafficAllocation
deriving Repr, DecidableEq

/-- `Config` (main.go): all configuration values for a misuzu deployment. -/
structure Config where
  Project : String
  Service : String
  TargetVersion : String
  Interval : ℤ
  TargetRate : ℤ
  StepRate : ℤ
  DryRun : Bool
deriving Repr, DecidableEq

/-- Constant `MinStepRate` (main.go). -/
def MinStepRate : ℤ := 1

/-- Constant `MaxStepRate` (main.go). -/
def MaxStepRate : ℤ := 100

/-- Constant `PercentageMultiplier` (App Engine client file). -/
def PercentageMultiplier : ℚ := 100

/-- `ValidationError` (main.go): a configuration validation error. -/
structure ValidationError where
  Field : String
  Message : String
deriving Repr, DecidableEq

/-- `(c *Config) validate` (main.go, lines 62–86): each check is performed
unconditionally and appends to `validationErrors`; the function returns
`errors.Join` of the collected list, which is `nil` exactly when the list is
empty.  We return the collected list itself. -/
def validate (c : Config) : List ValidationError :=
  (if c.Project = "" then [⟨"project", "is required"⟩] else []) ++
  (if c.Service = "" then [⟨"service", "is required"⟩] else []) ++
  (if c.TargetVersion = "" then [⟨"target-version", "is required"⟩] else []) ++
  (if c.StepRate < MinStepRate ∨ c.StepRate > MaxStepRate then
    [⟨"step-rate", "must be between 1 and 100 (inclusive)"⟩] else [])

/-- The distinct `fmt.Errorf` results of `determineSourceVersion` (main.go),
each carrying the data its message interpolates. -/
inductive ResolveError where
  | NoTrafficData : ResolveError
  | AlreadyComplete (targetVersion : String) : ResolveError
  | DestinationNotFound (targetVersion : String) : ResolveError
  | AbnormalTrafficState (count : ℕ) (versions : List (String × ℚ)) : ResolveError
deriving Repr, DecidableEq

/-- `determineSourceVersion` (main.go, lines 130–168).  The two-allocation
case runs a loop over the allocations, overwriting `sourceVersion` (initially
`""`) with the version of every allocation different from `targetVersion`,
and errors when the loop leaves `""`.  The abnormal case collects every
`(version, percentage)` pair into the error message. -/
def determineSourceVersion (trafficInfo : TrafficInfo) (targetVersion : String) :
    Except ResolveError String :=
  match trafficInfo.Allocations with
  | [] => .error .NoTrafficData
  | [allocation] =>
      if allocation.Version = targetVersion then
        .error (.AlreadyComplete targetVersion)
      else
        .ok allocation.Version
  | [_, _] =>
      let sourceVersion := trafficInfo.Allocations.foldl
        (fun sourceVersion allocation =>
          if allocation.Version ≠ targetVersion then allocation.Version
          else sourceVersion) ""
      if sourceVersion = "" then
        .error (.DestinationNotFound targetVersion)
      else
        .ok sourceVersion
  | allocations =>
      .error (.AbnormalTrafficState allocations.length
        (allocations.map fun allocation => (allocation.Version, allocation.Percentage)))

/-- `isVersionInTrafficAllocations` (main.go, lines 171–178): the loop
returns `true` at the first allocation whose version matches. -/
def isVersionInTrafficAllocations (trafficInfo : TrafficInfo) (version : String) : Bool :=
  trafficInfo.Allocations.any fun allocation => allocation.Version = version

/-- The loop of `getTrafficPercentage` (main.go, lines 256–263). -/
def getTrafficPercentageLoop (allocations : List TrafficAllocation) (version : String) : ℚ :=
  match allocations with
  | [] => -1
  | allocation :: rest =>
      if allocation.Version = version then allocation.Percentage
      else getTrafficPercentageLoop rest version

/-- `getTrafficPercentage` (main.go, lines 255–263): the percentage of the
first allocation whose version matches, `-1.0` when none does. -/
def getTrafficPercentage (trafficInfo : TrafficInfo) (version : String) : ℚ :=
  getTrafficPercentageLoop trafficInfo.Allocations version

/-- The key set of the generated protobuf map `TrafficSplit_ShardBy_value`
(package `appenginepb`), looked up by `UpdateTrafficAllocation`. -/
def TrafficSplit_ShardBy_keys : List String :=
  ["UNSPECIFIED", "COOKIE", "IP", "RANDOM"]

/-- `strings.ToUpper`, character-wise; it agrees with Go on the ASCII
arguments in play (the keys above and the empty string). -/
def stringToUpper (s : String) : String :=
  String.mk (s.data.map Char.toUpper)

/-- Outcome of the local logic of `UpdateTrafficAllocation` (App Engine
client file, lines 166–214): either the `shardBy` lookup fails before any
platform request, or an `UpdateService` request carrying the
percentage-to-decimal converted allocations is issued to the platform. -/
inductive ApplyResult where
  | unsupportedShardBy (shardBy : String) : ApplyResult
  | requested (apiAllocations : List (String × ℚ)) : ApplyResult
deriving Repr, DecidableEq

/-- `(c *AppEngineClient) UpdateTrafficAllocation` (App Engine client file,
lines 166–214), up to its external `UpdateService` call: it resolves
`strings.ToUpper(shardBy)` against `TrafficSplit_ShardBy_value`, failing with
`unsupported shardBy value` when absent, and otherwise issues the update
request with each percentage divided by `PercentageMultiplier`. -/
def UpdateTrafficAllocation (shardBy : String) (allocations : List (String × ℚ)) :
    ApplyResult :=
  if TrafficSplit_ShardBy_keys.contains (stringToUpper shardBy) then
    .requested (allocations.map fun p => (p.1, p.2 / PercentageMultiplier))
  else
    .unsupportedShardBy shardBy

/-- `nextTargetRate`/`nextSourceRate` computation of `main` (main.go, lines
235–240): add the step rate to the target's current percentage, clamp to the
target rate, and give the source the complement to 100. -/
def nextStep (currentTargetPct : ℚ) (stepRate targetRate : ℤ) : ℚ × ℚ :=
  let nextTargetRate0 := currentTargetPct + (stepRate : ℚ)
  let nextTargetRate :=
    if nextTargetRate0 > (targetRate : ℚ) then (targetRate : ℚ) else nextTargetRate0
  (nextTargetRate, 100 - nextTargetRate)

/-- Observable result of one controller run: the process exit code and the
`UpdateTrafficAllocation` invocations with their `(shardBy, allocations)`
arguments. -/
structure RunResult where
  exitCode : ℕ
  updateCalls : List (String × List (String × ℚ))
deriving Repr, DecidableEq

/-- `main` (main.go, lines 180–253) after flag parsing, taking the traffic
snapshot obtained from the platform as input.  `platformOk` is the platform's
answer to a well-formed `UpdateService` request (`operation.Wait` included).
Mirrors the code: validation failure exits 1; a target version absent from
the allocations exits 1; a resolver error exits 1; a target percentage
already at or above the target rate exits 0 with no update call; otherwise
the next split is computed and `UpdateTrafficAllocation` is invoked with
`shardBy = ""` — the code consults `config.DryRun` only in `display`, never
in this control flow. -/
def mainRun (config : Config) (trafficInfo : TrafficInfo) (platformOk : Bool) : RunResult :=
  if validate config ≠ [] then
    ⟨1, []⟩
  else
    let targetVersion := config.TargetVersion
    if ¬ isVersionInTrafficAllocations trafficInfo targetVersion then
      ⟨1, []⟩
    else
      match determineSourceVersion trafficInfo targetVersion with
      | .error _ => ⟨1, []⟩
      | .ok sourceVersion =>
          if getTrafficPercentage trafficInfo targetVersion ≥ (config.TargetRate : ℚ) then
            ⟨0, []⟩
          else
            let next := nextStep (getTrafficPercentage trafficInfo targetVersion)
              config.StepRate config.TargetRate
            let allocations := [(sourceVersion, next.2), (targetVersion, next.1)]
            match UpdateTrafficAllocation "" allocations with
            | .unsupportedShardBy _ => ⟨1, [("", allocations)]⟩
            | .requested _ => if platformOk then ⟨0, [("", allocations)]⟩ else ⟨1, [("", allocations)]⟩

end Misuzu

namespace Misuzu

/-! ### Helper lemmas -/

/-- The two components of a computed split always complement each other. -/
theorem nextStep_fst_add_snd (cur : ℚ) (st tr : ℤ) :
    (nextStep cur st tr).1 + (nextStep cur st tr).2 = 100 := by
  simp only [nextStep]
  split <;> ring

/-- The percentage loop returns the first matching allocation's percentage. -/
theorem getTrafficPercentageLoop_first (version : String) (pre : List TrafficAllocation)
    (a : TrafficAllocation) (post : List TrafficAllocation)
    (hpre : ∀ b ∈ pre, b.Version ≠ version) (ha : a.Version = version) :
    getTrafficPercentageLoop (pre ++ a :: post) version = a.Percentage := by
  induction pre with
  | nil => simp [getTrafficPercentageLoop, ha]
  | cons b rest ih =>
      have hb : b.Version ≠ version := hpre b (List.mem_cons_self b rest)
      simp only [List.cons_append, getTrafficPercentageLoop, hb, if_neg hb]
      exact ih fun c hc => hpre c (List.mem_cons_of_mem b hc)

/-- The percentage loop returns `-1` when no allocation matches. -/
theorem getTrafficPercentageLoop_none (version : String) (l : List TrafficAllocation)
    (h : ∀ a ∈ l, a.Version ≠ version) :
    getTrafficPercentageLoop l version = -1 := by
  induction l with
  | nil => rfl
  | cons a rest ih =>
      have ha : a.Version ≠ version := h a (List.mem_cons_self a rest)
      simp only [getTrafficPercentageLoop, if_neg ha]
      exact ih fun b hb => h b (List.mem_cons_of_mem a hb)

/-! ### Claim theorems -/

/-- C5: The step calculator of `main` computes
`next_destination = min(current + step, target)` and
`next_source = 100 - next_destination`; the destination component never
exceeds the target rate, and the three concrete examples of the spec hold. -/
theorem nextStep_spec (cur : ℚ) (st tr : ℤ)
    (hc0 : 0 ≤ cur) (hc1 : cur ≤ 100) (hs1 : 1 ≤ st) (hs2 : st ≤ 100)
    (ht0 : 0 ≤ tr) (ht1 : tr ≤ 100) :
    (nextStep cur st tr).1 = min (cur + (st : ℚ)) ((tr : ℚ)) ∧
    (nextStep cur st tr).2 = 100 - min (cur + (st : ℚ)) ((tr : ℚ)) ∧
    (nextStep cur st tr).1 ≤ (tr : ℚ) ∧
    nextStep 30 10 100 = (40, 60) ∧
    nextStep 95 10 100 = (100, 0) ∧
    nextStep 50 25 60 = (60, 40) := by
  refine ⟨?_, ?_, ?_, by norm_num [nextStep], by norm_num [nextStep], by norm_num [nextStep]⟩ <;>
    · simp only [nextStep, min_def]
      split_ifs <;> first | rfl | linarith

/-- Witness for C5 at `(30, 10, 100)`. -/
theorem nextStep_spec_witness :
    (0:ℚ) ≤ 30 ∧ (30:ℚ) ≤ 100 ∧ (1:ℤ) ≤ 10 ∧ (10:ℤ) ≤ 100 ∧ (0:ℤ) ≤ 100 ∧ (100:ℤ) ≤ 100 ∧
    (nextStep 30 10 100).1 = min ((30:ℚ) + ((10:ℤ) : ℚ)) (((100:ℤ) : ℚ)) :=
  ⟨by norm_num, by norm_num, by norm_num, by norm_num, by norm_num, by norm_num,
    (nextStep_spec 30 10 100 (by norm_num) (by norm_num) (by norm_num) (by norm_num)
      (by norm_num) (by norm_num)).1⟩

/-- C7: `validate` returns no violation exactly when project, service and
target-version are non-empty and the step rate lies in `[1, 100]`; every
violated check contributes its named field to the result, independently of
the others. -/
theorem validate_spec (c : Config) :
    (validate c = [] ↔
      c.Project ≠ "" ∧ c.Service ≠ "" ∧ c.TargetVersion ≠ "" ∧
      MinStepRate ≤ c.StepRate ∧ c.StepRate ≤ MaxStepRate) ∧
    (c.Project = "" → (⟨"project", "is required"⟩ : ValidationError) ∈ validate c) ∧
    (c.Service = "" → (⟨"service", "is required"⟩ : ValidationError) ∈ validate c) ∧
    (c.TargetVersion = "" → (⟨"target-version", "is required"⟩ : ValidationError) ∈ validate c) ∧
    ((c.StepRate < MinStepRate ∨ c.StepRate > MaxStepRate) →
      (⟨"step-rate", "must be between 1 and 100 (inclusive)"⟩ : ValidationError) ∈ validate c) := by
  unfold validate MinStepRate MaxStepRate
  split_ifs with h1 h2 h3 h4 <;> simp_all <;> omega

/-- Witness for C7: an all-empty, zero-step configuration reports every
field, and a fully populated configuration reports none. -/
theorem validate_spec_witness :
    (⟨"project", "is required"⟩ : ValidationError) ∈ validate ⟨"", "", "", 0, 100, 0, false⟩ ∧
    validate ⟨"p", "s", "B", 300, 100, 10, false⟩ = [] :=
  ⟨(validate_spec ⟨"", "", "", 0, 100, 0, false⟩).2.1 rfl,
    (validate_spec ⟨"p", "s", "B", 300, 100, 10, false⟩).1.mpr
      (by refine ⟨by decide, by decide, by decide, by decide, by decide⟩)⟩

/-- C8: The remaining resolver cases: an empty snapshot yields
`NoTrafficData`; a single allocation differing from the destination resolves
to that allocation's version; three or more allocations yield
`AbnormalTrafficState` carrying every `(version, percentage)` pair. -/
theorem determineSourceVersion_cases (sname t : String) :
    determineSourceVersion ⟨sname, []⟩ t = .error .NoTrafficData ∧
    (∀ a : TrafficAllocation, a.Version ≠ t →
      determineSourceVersion ⟨sname, [a]⟩ t = .ok a.Version) ∧
    (∀ allocations : List TrafficAllocation, 3 ≤ allocations.length →
      determineSourceVersion ⟨sname, allocations⟩ t =
        .error (.AbnormalTrafficState allocations.length
          (allocations.map fun a => (a.Version, a.Percentage)))) := by
  refine ⟨rfl, ?_, ?_⟩
  · intro a ha
    simp [determineSourceVersion, ha]
  · intro allocations hlen
    match allocations, hlen with
    | a :: b :: c :: rest, _ => rfl

/-- Witness for C8 on the spec's concrete snapshots. -/
theorem determineSourceVersion_cases_witness :
    determineSourceVersion ⟨"svc", [⟨"A", 100⟩]⟩ "B" = .ok "A" ∧
    determineSourceVersion ⟨"svc", [⟨"A", 50⟩, ⟨"B", 30⟩, ⟨"C", 20⟩]⟩ "B" =
      .error (.AbnormalTrafficState 3 [("A", 50), ("B", 30), ("C", 20)]) :=
  ⟨(determineSourceVersion_cases "svc" "B").2.1 ⟨"A", 100⟩ (by decide),
    (determineSourceVersion_cases "svc" "B").2.2 [⟨"A", 50⟩, ⟨"B", 30⟩, ⟨"C", 20⟩] (by decide)⟩

/-- C10: `getTrafficPercentage` returns the percentage of the first
allocation whose version matches, and `-1.0` (in particular not `0.0`) when
no allocation matches. -/
theorem getTrafficPercentage_spec (ti : TrafficInfo) (version : String) :
    (∀ (pre : List TrafficAllocation) (a : TrafficAllocation) (post : List TrafficAllocation),
      ti.Allocations = pre ++ a :: post →
      (∀ b ∈ pre, b.Version ≠ version) → a.Version = version →
      getTrafficPercentage ti version = a.Percentage) ∧
    ((∀ a ∈ ti.Allocations, a.Version ≠ version) →
      getTrafficPercentage ti version = -1 ∧ getTrafficPercentage ti version ≠ 0) := by
  constructor
  · intro pre a post hsplit hpre ha
    unfold getTrafficPercentage
    rw [hsplit]
    exact getTrafficPercentageLoop_first version pre a post hpre ha
  · intro hnone
    unfold getTrafficPercentage
    rw [getTrafficPercentageLoop_none version ti.Allocations hnone]
    norm_num

/-- Witness for C10 on the snapshot `{A:70, B:30}`. -/
theorem getTrafficPercentage_spec_witness :
    getTrafficPercentage ⟨"svc", [⟨"A", 70⟩, ⟨"B", 30⟩]⟩ "B" = 30 ∧
    getTrafficPercentage ⟨"svc", [⟨"A", 70⟩, ⟨"B", 30⟩]⟩ "Z" = -1 :=
  ⟨(getTrafficPercentage_spec ⟨"svc", [⟨"A", 70⟩, ⟨"B", 30⟩]⟩ "B").1
      [⟨"A", 70⟩] ⟨"B", 30⟩ [] rfl (by decide) rfl,
    ((getTrafficPercentage_spec ⟨"svc", [⟨"A", 70⟩, ⟨"B", 30⟩]⟩ "Z").2 (by decide)).1⟩

end Misuzu

namespace Misuzu

/-- C3, counterexample: On the snapshot `{A:70, B:30}` with destination
`C` (absent), `determineSourceVersion` returns the version `B` of the second
allocation, not the `DestinationNotFound` error the claim requires. -/
theorem determineSourceVersion_absent_destination_returns_version :
    determineSourceVersion ⟨"svc", [⟨"A", 70⟩, ⟨"B", 30⟩]⟩ "C" = .ok "B" := rfl

/-- C3, amended: For exactly two allocations, `determineSourceVersion`
returns the version of the (non-empty-named) allocation differing from the
destination when the destination is present; when neither allocation's
version equals the destination the resolver itself returns the second
allocation's version, and it is the controller's preceding membership check
that makes such a run fail (exit 1, no apply) before the resolver's answer is
used. -/
theorem determineSourceVersion_two_allocations (sname t : String)
    (a b : TrafficAllocation) :
    (a.Version = t → b.Version ≠ t → b.Version ≠ "" →
      determineSourceVersion ⟨sname, [a, b]⟩ t = .ok b.Version) ∧
    (b.Version = t → a.Version ≠ t → a.Version ≠ "" →
      determineSourceVersion ⟨sname, [a, b]⟩ t = .ok a.Version) ∧
    (∀ (config : Config) (platformOk : Bool), config.TargetVersion = t →
      a.Version ≠ t → b.Version ≠ t →
      mainRun config ⟨sname, [a, b]⟩ platformOk = ⟨1, []⟩) := by
  refine ⟨?_, ?_, ?_⟩
  · intro ha hb hb0
    simp [determineSourceVersion, ha, hb, hb0]
  · intro hb ha ha0
    simp [determineSourceVersion, ha, hb, ha0]
  · intro config platformOk hct ha hb
    have hmem : isVersionInTrafficAllocations ⟨sname, [a, b]⟩ config.TargetVersion = false := by
      simp [isVersionInTrafficAllocations, hct, ha, hb]
    simp only [mainRun]
    split
    · rfl
    · rw [hmem]
      simp

/-- Witness for C3 (amended) on `{A:70, B:30}`: destination `B` resolves the
source `A`; with destination `C` the controller run fails with no apply. -/
theorem determineSourceVersion_two_allocations_witness :
    determineSourceVersion ⟨"svc", [⟨"A", 70⟩, ⟨"B", 30⟩]⟩ "B" = .ok "A" ∧
    mainRun ⟨"p", "s", "C", 0, 100, 10, false⟩ ⟨"svc", [⟨"A", 70⟩, ⟨"B", 30⟩]⟩ true = ⟨1, []⟩ :=
  ⟨(determineSourceVersion_two_allocations "svc" "B" ⟨"A", 70⟩ ⟨"B", 30⟩).2.1
      rfl (by decide) (by decide),
    (determineSourceVersion_two_allocations "svc" "C" ⟨"A", 70⟩ ⟨"B", 30⟩).2.2
      ⟨"p", "s", "C", 0, 100, 10, false⟩ true rfl (by decide) (by decide)⟩

/-- C4, counterexample: With the snapshot `{B:100}` and destination `B`,
the resolver reports `AlreadyComplete`, but the controller run exits with
code 1 (the uniform resolver-error path), not 0 as the claim requires. -/
theorem alreadyComplete_run_exits_one :
    determineSourceVersion ⟨"svc", [⟨"B", 100⟩]⟩ "B" = .error (.AlreadyComplete "B") ∧
    mainRun ⟨"p", "s", "B", 0, 100, 10, false⟩ ⟨"svc", [⟨"B", 100⟩]⟩ true = ⟨1, []⟩ := by
  constructor
  · rfl
  · simp +decide [mainRun, validate, MinStepRate, MaxStepRate,
      isVersionInTrafficAllocations, determineSourceVersion]

/-- C4, amended: For every run whose snapshot holds exactly one
allocation with the destination's version, the resolver reports
`AlreadyComplete` and the controller terminates with exit code 1 — the same
failure path as every other resolver error — and no apply call is issued. -/
theorem alreadyComplete_failure_path (config : Config) (ti : TrafficInfo)
    (platformOk : Bool) (allocation : TrafficAllocation)
    (hsingle : ti.Allocations = [allocation])
    (hdest : allocation.Version = config.TargetVersion) :
    determineSourceVersion ti config.TargetVersion =
      .error (.AlreadyComplete config.TargetVersion) ∧
    mainRun config ti platformOk = ⟨1, []⟩ := by
  have hres : determineSourceVersion ti config.TargetVersion =
      .error (.AlreadyComplete config.TargetVersion) := by
    simp [determineSourceVersion, hsingle, hdest]
  refine ⟨hres, ?_⟩
  simp only [mainRun]
  split
  · rfl
  · split
    · rfl
    · rw [hres]

/-- Witness for C4 (amended) at the snapshot `{B:100}`, destination `B`. -/
theorem alreadyComplete_failure_path_witness :
    determineSourceVersion ⟨"svc", [⟨"B", 100⟩]⟩ "B" = .error (.AlreadyComplete "B") ∧
    mainRun ⟨"p", "s", "B", 0, 50, 10, true⟩ ⟨"svc", [⟨"B", 100⟩]⟩ false = ⟨1, []⟩ :=
  alreadyComplete_failure_path ⟨"p", "s", "B", 0, 50, 10, true⟩ ⟨"svc", [⟨"B", 100⟩]⟩
    false ⟨"B", 100⟩ rfl rfl

/-- C6, counterexample: Destination `B` is present in `{B:100}` with
percentage `100 ≥ 50` = target rate, yet the run exits 1 (the resolver's
`AlreadyComplete` error), not 0 as the claim requires for every snapshot. -/
theorem atTarget_claim_fails_on_single_allocation :
    isVersionInTrafficAllocations ⟨"svc", [⟨"B", 100⟩]⟩ "B" = true ∧
    getTrafficPercentage ⟨"svc", [⟨"B", 100⟩]⟩ "B" ≥ ((50 : ℤ) : ℚ) ∧
    (mainRun ⟨"p", "s", "B", 0, 50, 10, false⟩ ⟨"svc", [⟨"B", 100⟩]⟩ true).exitCode = 1 := by
  refine ⟨by decide, by norm_num [getTrafficPercentage, getTrafficPercentageLoop], ?_⟩
  have h : mainRun ⟨"p", "s", "B", 0, 50, 10, false⟩ ⟨"svc", [⟨"B", 100⟩]⟩ true = ⟨1, []⟩ := by
    simp +decide [mainRun, validate, MinStepRate, MaxStepRate,
      isVersionInTrafficAllocations, determineSourceVersion]
  rw [h]

/-- C6, amended: For every valid configuration and snapshot on which
source resolution succeeds, when the destination is present with a
percentage at or above the target rate the run exits 0 and issues no apply
call, regardless of the step rate and of the platform's behaviour. -/
theorem atTarget_no_action (config : Config) (ti : TrafficInfo) (platformOk : Bool)
    (src : String)
    (hval : validate config = [])
    (hpresent : isVersionInTrafficAllocations ti config.TargetVersion = true)
    (hres : determineSourceVersion ti config.TargetVersion = .ok src)
    (hge : getTrafficPercentage ti config.TargetVersion ≥ ((config.TargetRate : ℤ) : ℚ)) :
    mainRun config ti platformOk = ⟨0, []⟩ := by
  simp [mainRun, hval, hpresent, hres, hge]

/-- Witness for C6 (amended): snapshot `{A:0, B:100}`, destination `B`,
target rate 50, step rate 10. -/
theorem atTarget_no_action_witness :
    mainRun ⟨"p", "s", "B", 0, 50, 10, false⟩ ⟨"svc", [⟨"A", 0⟩, ⟨"B", 100⟩]⟩ true = ⟨0, []⟩ :=
  atTarget_no_action ⟨"p", "s", "B", 0, 50, 10, false⟩ ⟨"svc", [⟨"A", 0⟩, ⟨"B", 100⟩]⟩
    true "A" rfl (by decide) rfl
    (by
      have h : getTrafficPercentage ⟨"svc", [⟨"A", 0⟩, ⟨"B", 100⟩]⟩ "B" = 100 := by
        simp +decide [getTrafficPercentage, getTrafficPercentageLoop]
      rw [h]
      norm_num)

end Misuzu

namespace Misuzu

/-- C9: Every allocation map the controller hands to
`UpdateTrafficAllocation` carries exactly the two step-plan percentages, and
they sum to exactly 100. -/
theorem mainRun_stepPlan_sum (config : Config) (ti : TrafficInfo) (platformOk : Bool)
    (shardBy : String) (allocations : List (String × ℚ))
    (h : (shardBy, allocations) ∈ (mainRun config ti platformOk).updateCalls) :
    (allocations.map Prod.snd).sum = 100 := by
  simp only [mainRun] at h
  split at h
  · simp at h
  · split at h
    · simp at h
    · split at h
      · simp at h
      · split at h
        · simp at h
        · split at h
          · simp at h
            obtain ⟨h1, h2⟩ := h
            subst h2
            simp
            have := nextStep_fst_add_snd (getTrafficPercentage ti config.TargetVersion)
              config.StepRate config.TargetRate
            linarith
          · split at h <;>
            · simp at h
              obtain ⟨h1, h2⟩ := h
              subst h2
              simp
              have := nextStep_fst_add_snd (getTrafficPercentage ti config.TargetVersion)
                config.StepRate config.TargetRate
              linarith

/-- Witness for C9 on the live scenario's single update call. -/
theorem mainRun_stepPlan_sum_witness :
    ("", [(("A" : String), (90 : ℚ)), ("B", 10)]) ∈
      (mainRun ⟨"p", "s", "B", 0, 100, 10, false⟩
        ⟨"svc", [⟨"A", 100⟩, ⟨"B", 0⟩]⟩ true).updateCalls ∧
    ([(("A" : String), (90 : ℚ)), ("B", 10)].map Prod.snd).sum = 100 := by
  have h : mainRun ⟨"p", "s", "B", 0, 100, 10, false⟩
      ⟨"svc", [⟨"A", 100⟩, ⟨"B", 0⟩]⟩ true = ⟨1, [("", [("A", 90), ("B", 10)])]⟩ := by
    simp +decide [mainRun, validate, MinStepRate, MaxStepRate, isVersionInTrafficAllocations,
      determineSourceVersion, getTrafficPercentage, getTrafficPercentageLoop, nextStep,
      UpdateTrafficAllocation, TrafficSplit_ShardBy_keys, stringToUpper, PercentageMultiplier]
    norm_num
  have hmem : ("", [(("A" : String), (90 : ℚ)), ("B", 10)]) ∈
      (mainRun ⟨"p", "s", "B", 0, 100, 10, false⟩
        ⟨"svc", [⟨"A", 100⟩, ⟨"B", 0⟩]⟩ true).updateCalls := by
    rw [h]
    simp
  exact ⟨hmem, mainRun_stepPlan_sum _ _ _ _ _ hmem⟩

/-- C1 (code bug): With the dry-run flag set, the controller still invokes
`UpdateTrafficAllocation` (which then fails on the empty `shardBy`, exit 1):
the flag is consulted only by `display`, never by the control flow, so a
dry run neither skips the apply call nor terminates successfully. -/
theorem dryRun_still_invokes_update :
    (⟨"p", "s", "B", 0, 100, 10, true⟩ : Config).DryRun = true ∧
    mainRun ⟨"p", "s", "B", 0, 100, 10, true⟩ ⟨"svc", [⟨"A", 100⟩, ⟨"B", 0⟩]⟩ true =
      ⟨1, [("", [("A", 90), ("B", 10)])]⟩ := by
  refine ⟨rfl, ?_⟩
  simp +decide [mainRun, validate, MinStepRate, MaxStepRate, isVersionInTrafficAllocations,
    determineSourceVersion, getTrafficPercentage, getTrafficPercentageLoop, nextStep,
    UpdateTrafficAllocation, TrafficSplit_ShardBy_keys, stringToUpper, PercentageMultiplier]
  norm_num

/-- C2 (code bug): On the end-to-end live scenario (destination `B`, step 10,
target rate 100, snapshot `{A:100, B:0}`) the controller resolves the source
`A` and computes the plan `(A:90, B:10)`, but the apply fails locally —
`main` passes the empty `shardBy`, absent from `TrafficSplit_ShardBy_value` —
so the run exits 1, not 0, without the platform ever receiving the split. -/
theorem endToEnd_live_run_fails_apply :
    determineSourceVersion ⟨"svc", [⟨"A", 100⟩, ⟨"B", 0⟩]⟩ "B" = .ok "A" ∧
    nextStep (getTrafficPercentage ⟨"svc", [⟨"A", 100⟩, ⟨"B", 0⟩]⟩ "B") 10 100 = (10, 90) ∧
    UpdateTrafficAllocation "" [("A", 90), ("B", 10)] = .unsupportedShardBy "" ∧
    mainRun ⟨"p", "s", "B", 0, 100, 10, false⟩ ⟨"svc", [⟨"A", 100⟩, ⟨"B", 0⟩]⟩ true =
      ⟨1, [("", [("A", 90), ("B", 10)])]⟩ := by
  refine ⟨rfl, ?_, ?_, ?_⟩
  · have h : getTrafficPercentage ⟨"svc", [⟨"A", 100⟩, ⟨"B", 0⟩]⟩ "B" = 0 := by
      simp +decide [getTrafficPercentage, getTrafficPercentageLoop]
    rw [h]
    norm_num [nextStep]
  · simp +decide [UpdateTrafficAllocation, TrafficSplit_ShardBy_keys, stringToUpper]
  · simp +decide [mainRun, validate, MinStepRate, MaxStepRate, isVersionInTrafficAllocations,
      determineSourceVersion, getTrafficPercentage, getTrafficPercentageLoop, nextStep,
      UpdateTrafficAllocation, TrafficSplit_ShardBy_keys, stringToUpper, PercentageMultiplier]
    norm_num

end Misuzu
